import Mathlib

/-!
Verification of the conthabil gazette-scraping workflow and its query API.

The Python sources are shallowly embedded:
* filenames, paths and URLs are `List Char`;
* the date parsing of `main_runner.run_full_workflow` (regex search for
  `\d{8}` followed by `strptime "%Y%m%d"`) becomes `firstRun8` and
  `parseYYYYMMDD`;
* network effects of `scraper._download_file` / `uploader._upload_file`
  are abstracted by a `NetOutcome`-valued world, with the `except` clauses
  of the Python code deciding which outcomes are caught (returning `none`)
  and which propagate (modelled by `Except.error`);
* the database touched by `crud.py` is a list of rows plus a fresh-id
  counter; the FastAPI handler `read_gazettes` of `main.py` is a function
  returning either rows or an HTTP error code, with Python truthiness of
  the optional query parameters modelled explicitly.
-/

namespace Conthabil

/-- A calendar date as produced by `datetime.strptime(date_str, "%Y%m%d")`. -/
structure PDate where
  year : Nat
  month : Nat
  day : Nat
deriving DecidableEq, Repr

/-- Gregorian leap-year rule used by Python's `datetime` validation. -/
def isLeap (y : Nat) : Bool :=
  (y % 4 == 0 && y % 100 != 0) || y % 400 == 0

/-- Number of days in a month, as validated by `datetime`. -/
def daysInMonth (y m : Nat) : Nat :=
  if m = 2 then (if isLeap y then 29 else 28)
  else if m = 4 ∨ m = 6 ∨ m = 9 ∨ m = 11 then 30
  else 31

/-- Numeric value of a list of ASCII digit characters. -/
def digitsToNat (l : List Char) : Nat :=
  l.foldl (fun n c => n * 10 + (c.toNat - '0'.toNat)) 0

/-- `datetime.strptime(t, "%Y%m%d")` on an 8-digit token: splits the token
into year/month/day and validates ranges (`MINYEAR = 1`, `MAXYEAR = 9999`),
returning `none` where Python raises `ValueError`. -/
def parseYYYYMMDD (t : List Char) : Option PDate :=
  if t.length = 8 ∧ t.all Char.isDigit then
    let y := digitsToNat (t.take 4)
    let m := digitsToNat ((t.drop 4).take 2)
    let d := digitsToNat (t.drop 6)
    if 1 ≤ y ∧ y ≤ 9999 ∧ 1 ≤ m ∧ m ≤ 12 ∧ 1 ≤ d ∧ d ≤ daysInMonth y m then
      some ⟨y, m, d⟩
    else none
  else none

/-- The 8 leading characters of `l`, when there are at least 8 and all are
digits; this is the match `\d{8}` attempts at one position. -/
def takeDigits8 (l : List Char) : Option (List Char) :=
  let t := l.take 8
  if t.length = 8 ∧ t.all Char.isDigit then some t else none

/-- `re.search(r"(\d{8})", s)`: the leftmost run of 8 consecutive digit
characters, scanning positions left to right. -/
def firstRun8 : List Char → Option (List Char)
  | [] => none
  | c :: cs =>
    match takeDigits8 (c :: cs) with
    | some t => some t
    | none => firstRun8 cs

/-- All 8-digit tokens occurring in `l` (one per starting position whose
next 8 characters are all digits), in order of starting position.  This is
the claim-side notion of "the filename contains an 8-digit token". -/
def windows8 : List Char → List (List Char)
  | [] => []
  | c :: cs =>
    (match takeDigits8 (c :: cs) with
     | some t => [t]
     | none => []) ++ windows8 cs

/-- The date `run_full_workflow` derives for a filename: regex-extract the
leftmost 8-digit token and `strptime` it; `none` where the Python loop
raises (and then catches) `ValueError` and skips the file. -/
def derivePublicationDate (filename : List Char) : Option PDate :=
  match firstRun8 filename with
  | none => none
  | some t => parseYYYYMMDD t

/-- `os.path.basename`: everything after the last `/`. -/
def basename (p : List Char) : List Char :=
  p.foldl (fun acc c => if c = '/' then [] else acc ++ [c]) []

/-- Outcome of a single network interaction attempted by
`scraper._download_file` or `uploader._upload_file`:
* `success v` — the transfer succeeded; for uploads `v` is the raw response
  body whose stripped text is returned as the public URL;
* `connError` — `httpx.RequestError` (connection-level failure);
* `httpError` — a non-2xx status, so `response.raise_for_status()` raises
  `httpx.HTTPStatusError`;
* `ioError` — `IOError`/`OSError` while opening or writing the local file. -/
inductive NetOutcome where
  | success (v : List Char)
  | connError
  | httpError
  | ioError
deriving DecidableEq, Repr

/-- `os.path.join(a, b)` for POSIX paths. -/
def osJoin (a b : List Char) : List Char :=
  if b.head? = some '/' then b
  else if a = [] ∨ a.getLast? = some '/' then a ++ b
  else a ++ '/' :: b

/-- Whitespace characters removed by `str.strip()`. -/
def isPyWS (c : Char) : Bool :=
  c = ' ' ∨ c = '\t' ∨ c = '\n' ∨ c = '\r' ∨ c = '\x0b' ∨ c = '\x0c'

/-- `str.strip()`: drop leading and trailing whitespace. -/
def stripWS (l : List Char) : List Char :=
  ((l.dropWhile isPyWS).reverse.dropWhile isPyWS).reverse

/-- `Scraper._download_file`: on success the file is saved under the
download path with the link's basename.  The `except` clause catches only
`httpx.RequestError`, so an HTTP error status or a local I/O error
propagates as an exception (`Except.error`). -/
def download_file (world : List Char → NetOutcome) (downloadPath link : List Char) :
    Except Unit (Option (List Char)) :=
  match world link with
  | .success _ => .ok (some (osJoin downloadPath (basename link)))
  | .connError => .ok none
  | .httpError => .error ()
  | .ioError => .error ()

/-- `list(executor.map(f, xs))`: results are retrieved in submission
order, and the first worker exception re-raises at retrieval, discarding
the rest of the batch's results. -/
def mapExcept (f : α → Except Unit β) : List α → Except Unit (List β)
  | [] => .ok []
  | a :: as =>
    match f a with
    | .error e => .error e
    | .ok b => (mapExcept f as).map (fun bs => b :: bs)

/-- `Scraper._download_all_files`: `list(executor.map(...))` re-raises the
first exception of any worker (in submission order); otherwise the `None`
results of failed downloads are filtered out. -/
def download_all_files (world : List Char → NetOutcome) (downloadPath : List Char)
    (links : List (List Char)) : Except Unit (List (List Char)) :=
  (mapExcept (download_file world downloadPath) links).map (fun rs => rs.filterMap id)

/-- `Uploader._upload_file`: returns the stripped response body as the
public URL.  The `except` clause catches `httpx.RequestError` and
`IOError`, but `response.raise_for_status()` raises `httpx.HTTPStatusError`,
which matches neither and propagates. -/
def upload_file (world : List Char → NetOutcome) (p : List Char) :
    Except Unit (Option (List Char)) :=
  match world p with
  | .success body => .ok (some (stripWS body))
  | .connError => .ok none
  | .ioError => .ok none
  | .httpError => .error ()

/-- `Uploader.upload_files`: concurrent map over the paths, then the `None`
results of failed uploads are filtered out. -/
def upload_files (world : List Char → NetOutcome) (paths : List (List Char)) :
    Except Unit (List (List Char)) :=
  (mapExcept (upload_file world) paths).map (fun rs => rs.filterMap id)

/-- Insertion into a Python `dict`: an existing key keeps its position and
gets the new value, a new key is appended. -/
def dictInsert (m : List (List Char × List Char)) (k v : List Char) :
    List (List Char × List Char) :=
  if m.any (fun e => e.1 = k) then m.map (fun e => if e.1 = k then (k, v) else e)
  else m ++ [(k, v)]

/-- `dict(zip(us, ps))` from `run_full_workflow`: pairs the i-th uploaded
URL with the i-th downloaded path, truncating at the shorter list. -/
def dictOfZip (us ps : List (List Char)) : List (List Char × List Char) :=
  (List.zip us ps).foldl (fun m e => dictInsert m e.1 e.2) []

/-- The storage loop of `run_full_workflow`: for each `(uploaded_url,
file_path)` entry, derive the publication date from the basename and call
the storage API; entries whose filename yields no valid date raise
`ValueError`, which is caught, logged and skipped. -/
def storeCalls (entries : List (List Char × List Char)) :
    List (List Char × PDate) :=
  entries.filterMap (fun e => (derivePublicationDate (basename e.2)).map (fun d => (e.1, d)))

/-- The three pipeline stages of `run_full_workflow`. -/
inductive Stage where
  | scrape
  | upload
  | store
deriving DecidableEq, Repr

/-- `run_full_workflow`, abstracted over the scrape result and the upload
world: returns the list of stages that were invoked and the `(url, date)`
pairs handed to the storage API.  Mirrors the source: a critical scrape or
upload error returns early, an empty stage result skips the remaining
stages, otherwise the storage loop runs over `dict(zip(uploaded_urls,
downloaded_paths))`. -/
def run_full_workflow (scrapeRes : Except Unit (List (List Char)))
    (uploadWorld : List Char → NetOutcome) :
    List Stage × List (List Char × PDate) :=
  match scrapeRes with
  | .error _ => ([.scrape], [])
  | .ok downloaded_paths =>
    if downloaded_paths = [] then ([.scrape], [])
    else
      match upload_files uploadWorld downloaded_paths with
      | .error _ => ([.scrape, .upload], [])
      | .ok uploaded_urls =>
        if uploaded_urls = [] then ([.scrape, .upload], [])
        else ([.scrape, .upload, .store],
              storeCalls (dictOfZip uploaded_urls downloaded_paths))

/-- A row of the `gazettes` table (`models.Gazette`). -/
structure GazetteRow where
  id : Nat
  url : List Char
  publication_date : PDate
deriving DecidableEq, Repr

/-- The request body of `POST /gazettes/` (`schemas.GazetteCreate`). -/
structure GazetteCreate where
  url : List Char
  publication_date : PDate
deriving DecidableEq, Repr

/-- The database: rows in insertion order plus the next auto-increment id. -/
structure DB where
  rows : List GazetteRow
  nextId : Nat
deriving DecidableEq, Repr

/-- `crud.create_gazette`: query the first row with the given url; if one
exists return it unchanged, otherwise insert a fresh row and return it. -/
def create_gazette (db : DB) (g : GazetteCreate) : GazetteRow × DB :=
  match db.rows.find? (fun r => r.url = g.url) with
  | some r => (r, db)
  | none =>
    let r : GazetteRow := ⟨db.nextId, g.url, g.publication_date⟩
    (r, ⟨db.rows ++ [r], db.nextId + 1⟩)

/-- `crud.get_gazettes`: offset/limit pagination over the table. -/
def get_gazettes (db : DB) (skip limit : Nat) : List GazetteRow :=
  (db.rows.drop skip).take limit

/-- `crud.get_gazettes_by_month_year`: rows whose publication date has the
given month and year (SQL `extract` comparisons). -/
def get_gazettes_by_month_year (db : DB) (month year : Int) : List GazetteRow :=
  db.rows.filter
    (fun r => (r.publication_date.month : Int) = month ∧ (r.publication_date.year : Int) = year)

/-- Python truthiness of an optional integer query parameter: `None` and
`0` are falsy, every other integer is truthy. -/
def truthy : Option Int → Bool
  | none => false
  | some v => v ≠ 0

/-- The result of the `GET /gazettes/` handler: either a JSON list of rows
or an HTTP error status. -/
inductive ApiResult where
  | ok (rows : List GazetteRow)
  | httpError (code : Nat)
deriving DecidableEq, Repr

/-- `main.read_gazettes`: the `GET /gazettes/` handler.  `if month and
year` filters; `if (month and not year) or (not month and year)` raises
HTTP 400; otherwise the paginated listing is returned.  FastAPI's query
validation (`ge=1, le=12`) guarantees a present `month` lies in 1..12
before the handler runs. -/
def read_gazettes (month year : Option Int) (skip limit : Nat) (db : DB) : ApiResult :=
  if truthy month && truthy year then
    .ok (get_gazettes_by_month_year db (month.getD 0) (year.getD 0))
  else if (truthy month && !truthy year) || (!truthy month && truthy year) then
    .httpError 400
  else
    .ok (get_gazettes db skip limit)

/-- `relativedelta` month normalisation applied by `date + relativedelta(
months := delta)` for `-12 ≤ delta ≤ 12`: add to the month and carry
into the year once if the result leaves 1..12. -/
def relativedeltaMonth (y m delta : Int) : Int × Int :=
  let month := m + delta
  if month > 12 then (y + 1, month - 12)
  else if month < 1 then (y - 1, month + 12)
  else (y, month)

/-- `today - relativedelta(months=1)` from `Scraper._perform_search`:
normalise the month, clamp the day to the target month's length, and fail
(`none`) where `datetime.replace` would raise because the resulting year
leaves `MINYEAR..MAXYEAR`. -/
def monthsBack1 (y m d : Nat) : Option (Nat × Nat × Nat) :=
  let t := relativedeltaMonth (y : Int) (m : Int) (-1)
  if 1 ≤ t.1 ∧ t.1 ≤ 9999 then
    some (t.1.toNat, t.2.toNat, min d (daysInMonth t.1.toNat t.2.toNat))
  else none

/-- The `(month, year)` pair `Scraper._perform_search` selects in the search
form: month and year of `today - relativedelta(months=1)`. -/
def searchTarget (y m d : Nat) : Option (Nat × Nat) :=
  (monthsBack1 y m d).map (fun t => (t.2.1, t.1))

/-- The result a single download contributes when its outcome is among the
caught ones: the saved path on success, nothing otherwise. -/
def successfulDownload (world : List Char → NetOutcome) (downloadPath l : List Char) :
    Option (List Char) :=
  match world l with
  | .success _ => some (osJoin downloadPath (basename l))
  | _ => none

/-- The result a single upload contributes when its outcome is among the
caught ones: the stripped response body on success, nothing otherwise. -/
def successfulUpload (world : List Char → NetOutcome) (p : List Char) :
    Option (List Char) :=
  match world p with
  | .success body => some (stripWS body)
  | _ => none

theorem firstRun8_eq_head_windows8 (l : List Char) :
    firstRun8 l = (windows8 l).head? := by
  induction l with
  | nil => rfl
  | cons c cs ih =>
    simp only [firstRun8, windows8]
    cases h : takeDigits8 (c :: cs) with
    | none => simpa using ih
    | some t => rfl

theorem mapExcept_download (dw : List Char → NetOutcome) (dp : List Char)
    (links : List (List Char))
    (h : ∀ l ∈ links, dw l ≠ NetOutcome.httpError ∧ dw l ≠ NetOutcome.ioError) :
    mapExcept (download_file dw dp) links =
      .ok (links.map (successfulDownload dw dp)) := by
  induction links with
  | nil => rfl
  | cons l ls ih =>
    have h1 := h l (List.mem_cons_self l ls)
    have h2 : ∀ x ∈ ls, dw x ≠ NetOutcome.httpError ∧ dw x ≠ NetOutcome.ioError :=
      fun x hx => h x (List.mem_cons_of_mem l hx)
    cases hdw : dw l with
    | success v =>
      simp [mapExcept, download_file, hdw, ih h2, successfulDownload, Except.map]
    | connError =>
      simp [mapExcept, download_file, hdw, ih h2, successfulDownload, Except.map]
    | httpError => exact absurd hdw h1.1
    | ioError => exact absurd hdw h1.2

theorem mapExcept_upload (uw : List Char → NetOutcome) (paths : List (List Char))
    (h : ∀ p ∈ paths, uw p ≠ NetOutcome.httpError) :
    mapExcept (upload_file uw) paths =
      .ok (paths.map (successfulUpload uw)) := by
  induction paths with
  | nil => rfl
  | cons p ps ih =>
    have h1 := h p (List.mem_cons_self p ps)
    have h2 : ∀ x ∈ ps, uw x ≠ NetOutcome.httpError :=
      fun x hx => h x (List.mem_cons_of_mem p hx)
    cases huw : uw p with
    | success v =>
      simp [mapExcept, upload_file, huw, ih h2, successfulUpload, Except.map]
    | connError =>
      simp [mapExcept, upload_file, huw, ih h2, successfulUpload, Except.map]
    | ioError =>
      simp [mapExcept, upload_file, huw, ih h2, successfulUpload, Except.map]
    | httpError => exact absurd huw h1

/-! Concrete inputs used by counterexamples and witnesses. -/

/-- A downloaded file dated 2025-01-01 whose upload will fail. -/
def pathA : List Char := "/app/downloads/d_20250101.pdf".data

/-- A downloaded file dated 2025-01-02 whose upload will succeed. -/
def pathB : List Char := "/app/downloads/d_20250102.pdf".data

/-- The storage URL the upload endpoint returns for `pathB`. -/
def urlB : List Char := "http://bucket/d_20250102.pdf".data

/-- Upload world: the upload of `pathA` hits a connection error (caught,
yielding `None`), every other upload succeeds with `urlB` as body. -/
def uploadWorldC1 : List Char → NetOutcome :=
  fun p => if p = pathA then .connError else .success urlB

/-- C1: with `pathA`'s upload failing, `uploaded_urls = [urlB]` and
`dict(zip(uploaded_urls, downloaded_paths))` pairs `urlB` — the storage URL
of `pathB` — with `pathA`, so the record stored for `urlB` carries the date
2025-01-01 taken from `pathA`'s filename, while `pathB`'s own filename
spells 2025-01-02.  The claim that every stored `(url, publication_date)`
pair matches the same file, even when some uploads in the batch fail, is
violated by the code. -/
theorem C1_zip_misaligns_url_and_date :
    run_full_workflow (.ok [pathA, pathB]) uploadWorldC1 =
      ([Stage.scrape, Stage.upload, Stage.store], [(urlB, ⟨2025, 1, 1⟩)]) ∧
    uploadWorldC1 pathB = .success urlB ∧
    stripWS urlB = urlB ∧
    derivePublicationDate (basename pathB) = some ⟨2025, 1, 2⟩ ∧
    (⟨2025, 1, 1⟩ : PDate) ≠ ⟨2025, 1, 2⟩ := by
  refine ⟨by decide, by decide, by decide, by decide, by decide⟩

/-- Download world for the C2 counterexample: `badLink` answers with an
HTTP error status, everything else succeeds. -/
def downloadWorldC2 : List Char → NetOutcome :=
  fun l => if l = "http://site/a.pdf".data then .httpError else .success []

/-- C2 counterexample: the download of `b_20250102.pdf` succeeds on its
own, but in a batch where the sibling `a.pdf` fails with an HTTP error
status, `raise_for_status` raises `httpx.HTTPStatusError` — which the
`except httpx.RequestError` clause does not catch — and the whole batch
aborts, so the sibling's success is lost.  This refutes the claim that
failure isolation holds for every kind of per-item failure. -/
theorem C2_http_error_aborts_batch :
    download_all_files downloadWorldC2 "/app/downloads".data
      ["http://site/b_20250102.pdf".data] =
      .ok ["/app/downloads/b_20250102.pdf".data] ∧
    download_all_files downloadWorldC2 "/app/downloads".data
      ["http://site/a.pdf".data, "http://site/b_20250102.pdf".data] =
      .error () := by
  refine ⟨by rfl, by rfl⟩

/-- C2 as amended: failure isolation holds exactly for the failure kinds
the `except` clauses catch — connection errors for downloads, connection
and file I/O errors for uploads.  For batches containing only such
failures, every remaining item is processed and its result kept, and the
failed items are merely omitted; HTTP-status errors (either batch) and
I/O errors during download instead propagate and abort the batch. -/
theorem C2_failure_isolation_for_caught_kinds
    (dw uw : List Char → NetOutcome) (dp : List Char)
    (links paths : List (List Char))
    (hdl : ∀ l ∈ links, dw l ≠ NetOutcome.httpError ∧ dw l ≠ NetOutcome.ioError)
    (hul : ∀ p ∈ paths, uw p ≠ NetOutcome.httpError) :
    download_all_files dw dp links = .ok (links.filterMap (successfulDownload dw dp)) ∧
    upload_files uw paths = .ok (paths.filterMap (successfulUpload uw)) := by
  constructor
  · unfold download_all_files
    rw [mapExcept_download dw dp links hdl]
    simp [Except.map, List.filterMap_map]
  · unfold upload_files
    rw [mapExcept_upload uw paths hul]
    simp [Except.map, List.filterMap_map]

/-- Download world for the C2 witness: one connection error among
successes. -/
def downloadWorldW : List Char → NetOutcome :=
  fun l => if l = "http://site/a.pdf".data then .connError else .success []

/-- Upload world for the C2 witness: one I/O error among successes. -/
def uploadWorldW : List Char → NetOutcome :=
  fun p => if p = "/app/downloads/x.pdf".data then .ioError
           else .success "http://bucket/y.pdf".data

/-- Witness for `C2_failure_isolation_for_caught_kinds` at concrete
batches containing one caught failure each. -/
theorem C2_failure_isolation_witness :
    download_all_files downloadWorldW "/app/downloads".data
      ["http://site/a.pdf".data, "http://site/b.pdf".data] =
      .ok (["http://site/a.pdf".data, "http://site/b.pdf".data].filterMap
        (successfulDownload downloadWorldW "/app/downloads".data)) ∧
    upload_files uploadWorldW ["/app/downloads/x.pdf".data, "/app/downloads/y.pdf".data] =
      .ok (["/app/downloads/x.pdf".data, "/app/downloads/y.pdf".data].filterMap
        (successfulUpload uploadWorldW)) :=
  C2_failure_isolation_for_caught_kinds downloadWorldW uploadWorldW
    "/app/downloads".data
    ["http://site/a.pdf".data, "http://site/b.pdf".data]
    ["/app/downloads/x.pdf".data, "/app/downloads/y.pdf".data]
    (by decide) (by decide)

/-- C3 counterexample: `99999999_20250101.pdf` contains the 8-digit date
token `20250101` (a valid date, 2025-01-01), but `re.search(r"(\d{8})")`
matches the leftmost run `99999999`, `strptime` raises `ValueError`, and
the file is skipped: no date at all is derived, refuting the claim. -/
theorem C3_leftmost_run_shadows_date_token :
    "20250101".data ∈ windows8 "99999999_20250101.pdf".data ∧
    parseYYYYMMDD "20250101".data = some ⟨2025, 1, 1⟩ ∧
    derivePublicationDate "99999999_20250101.pdf".data = none ∧
    derivePublicationDate "99999999_20250101.pdf".data ≠ some ⟨2025, 1, 1⟩ := by
  refine ⟨by decide, by decide, by decide, by decide⟩

/-- C3 as amended: the derived publication date equals the date spelled by
the filename's LEFTMOST 8-digit token, whenever that token spells a valid
`YYYYMMDD` date. -/
theorem C3_leftmost_token_date_derived (f t : List Char) (d : PDate)
    (h1 : (windows8 f).head? = some t) (h2 : parseYYYYMMDD t = some d) :
    derivePublicationDate f = some d := by
  unfold derivePublicationDate
  rw [firstRun8_eq_head_windows8, h1]
  exact h2

/-- Witness for `C3_leftmost_token_date_derived` on a gazette filename. -/
theorem C3_leftmost_token_date_witness :
    derivePublicationDate "diario_20250115.pdf".data = some ⟨2025, 1, 15⟩ :=
  C3_leftmost_token_date_derived "diario_20250115.pdf".data "20250115".data
    ⟨2025, 1, 15⟩ (by decide) (by decide)

/-- C4: an entry of the storage loop whose filename has no 8-digit token
produces no storage call, and the calls of the surrounding entries are
exactly what they would be without it — the loop catches the `ValueError`
and continues with the remaining files. -/
theorem C4_dateless_filename_skipped (xs ys : List (List Char × List Char))
    (u p : List Char) (h : firstRun8 (basename p) = none) :
    storeCalls [(u, p)] = [] ∧
    storeCalls (xs ++ (u, p) :: ys) = storeCalls xs ++ storeCalls ys := by
  have hd : derivePublicationDate (basename p) = none := by
    unfold derivePublicationDate
    rw [h]
  constructor
  · simp [storeCalls, hd]
  · simp [storeCalls, List.filterMap_append, hd]

/-- Witness for `C4_dateless_filename_skipped`: a dateless file between two
dated siblings contributes nothing while the siblings are stored. -/
theorem C4_dateless_filename_witness :
    storeCalls [("u2".data, "nodate.pdf".data)] = [] ∧
    storeCalls ([("u1".data, "a_20250101.pdf".data)] ++
        ("u2".data, "nodate.pdf".data) :: [("u3".data, "c_20250303.pdf".data)]) =
      storeCalls [("u1".data, "a_20250101.pdf".data)] ++
      storeCalls [("u3".data, "c_20250303.pdf".data)] :=
  C4_dateless_filename_skipped [("u1".data, "a_20250101.pdf".data)]
    [("u3".data, "c_20250303.pdf".data)] "u2".data "nodate.pdf".data (by decide)

/-- C5: creating a gazette is idempotent on `url`.  If a row with the
request's url already exists, `create_gazette` returns the first such row
(the pre-existing record found by `.first()`) and leaves the database
unchanged; and every create preserves the uniqueness invariant on urls. -/
theorem C5_create_idempotent_on_url (db : DB) (g : GazetteCreate) :
    (∀ r, db.rows.find? (fun x => x.url = g.url) = some r →
        create_gazette db g = (r, db)) ∧
    (g.url ∈ db.rows.map GazetteRow.url → (create_gazette db g).2 = db) ∧
    ((db.rows.map GazetteRow.url).Nodup →
        ((create_gazette db g).2.rows.map GazetteRow.url).Nodup) := by
  refine ⟨?_, ?_, ?_⟩
  · intro r hr
    unfold create_gazette
    rw [hr]
  · intro hmem
    unfold create_gazette
    cases hf : db.rows.find? (fun x => x.url = g.url) with
    | some r => rfl
    | none =>
      exfalso
      rw [List.find?_eq_none] at hf
      obtain ⟨r, hrmem, hurl⟩ := List.mem_map.mp hmem
      exact hf r hrmem (by simp [hurl])
  · intro hnd
    unfold create_gazette
    cases hf : db.rows.find? (fun x => x.url = g.url) with
    | some r => exact hnd
    | none =>
      rw [List.find?_eq_none] at hf
      simp only [List.map_append, List.map_cons, List.map_nil]
      rw [List.nodup_append]
      refine ⟨hnd, List.nodup_singleton _, ?_⟩
      intro a ha hb
      simp only [List.mem_singleton] at hb
      subst hb
      obtain ⟨r, hrmem, hurl⟩ := List.mem_map.mp ha
      exact hf r hrmem (by simp [hurl])

/-- The single pre-existing row used by the C5 witness. -/
def row5 : GazetteRow := ⟨1, "http://bucket/a.pdf".data, ⟨2025, 1, 1⟩⟩

/-- Database already holding `row5`. -/
def db5 : DB := ⟨[row5], 2⟩

/-- A create request for the url of `row5`. -/
def g5 : GazetteCreate := ⟨"http://bucket/a.pdf".data, ⟨2025, 3, 3⟩⟩

/-- Witness for `C5_create_idempotent_on_url`: re-submitting an existing
url returns the stored row and leaves the database unchanged. -/
theorem C5_create_idempotent_witness : create_gazette db5 g5 = (row5, db5) :=
  (C5_create_idempotent_on_url db5 g5).1 row5 (by decide)

/-- A stored gazette row dated July 2025. -/
def row6 : GazetteRow := ⟨1, "http://bucket/jul.pdf".data, ⟨2025, 7, 1⟩⟩

/-- A stored gazette row dated March 2024. -/
def row7 : GazetteRow := ⟨2, "http://bucket/mar.pdf".data, ⟨2024, 3, 9⟩⟩

/-- Database holding `row6` and `row7`. -/
def db6 : DB := ⟨[row6, row7], 3⟩

/-- C6 counterexample: `GET /gazettes/?year=0` (a year supplied, no month)
does not return HTTP 400 — `year=0` is falsy, so the handler falls through
to the unfiltered paginated listing and returns records. -/
theorem C6_year_zero_alone_not_400 :
    read_gazettes none (some 0) 0 100 db6 = .ok [row6, row7] ∧
    read_gazettes none (some 0) 0 100 db6 ≠ .httpError 400 := by
  refine ⟨by decide, by decide⟩

/-- C6 as amended: a month in 1..12 without a year yields HTTP 400, and a
NONZERO year without a month yields HTTP 400; `year=0` without a month is
instead treated as no filter at all. -/
theorem C6_lone_parameter_400 (db : DB) (skip limit : Nat) (m y : Int)
    (hm1 : 1 ≤ m) (hm2 : m ≤ 12) (hy : y ≠ 0) :
    read_gazettes (some m) none skip limit db = .httpError 400 ∧
    read_gazettes none (some y) skip limit db = .httpError 400 := by
  have hm : m ≠ 0 := by omega
  simp [read_gazettes, truthy, hm, hy]

/-- Witness for `C6_lone_parameter_400` at month 7 and year 2025. -/
theorem C6_lone_parameter_witness :
    read_gazettes (some 7) none 0 100 db6 = .httpError 400 ∧
    read_gazettes none (some 2025) 0 100 db6 = .httpError 400 :=
  C6_lone_parameter_400 db6 0 100 7 2025 (by decide) (by decide) (by decide)

/-- C7: whenever `GET /gazettes/` with a month in 1..12 and a year answers
with a list of rows, every returned row's publication date has exactly the
requested month and year, and every stored row with that month and year is
returned. -/
theorem C7_month_year_filter_exact (db : DB) (m y : Int) (skip limit : Nat)
    (rows : List GazetteRow) (hm1 : 1 ≤ m) (hm2 : m ≤ 12)
    (h : read_gazettes (some m) (some y) skip limit db = .ok rows) :
    (∀ r ∈ rows, (r.publication_date.month : Int) = m ∧
        (r.publication_date.year : Int) = y) ∧
    (∀ r ∈ db.rows, (r.publication_date.month : Int) = m →
        (r.publication_date.year : Int) = y → r ∈ rows) := by
  have hm : m ≠ 0 := by omega
  by_cases hy : y = 0
  · subst hy
    simp [read_gazettes, truthy, hm] at h
  · have hrows : rows = get_gazettes_by_month_year db m y := by
      simp [read_gazettes, truthy, hm, hy] at h
      exact h.symm
    subst hrows
    constructor
    · intro r hr
      have := List.of_mem_filter hr
      simpa using this
    · intro r hr h1 h2
      apply List.mem_filter_of_mem hr
      simp [h1, h2]

/-- Witness for `C7_month_year_filter_exact`: filtering `db6` by July 2025
returns exactly `row6`. -/
theorem C7_month_year_filter_witness :
    (∀ r ∈ [row6], (r.publication_date.month : Int) = 7 ∧
        (r.publication_date.year : Int) = 2025) ∧
    (∀ r ∈ db6.rows, (r.publication_date.month : Int) = 7 →
        (r.publication_date.year : Int) = 2025 → r ∈ [row6]) :=
  C7_month_year_filter_exact db6 7 2025 0 100 [row6]
    (by decide) (by decide) (by decide)

/-- C8: the orchestrator's stages run strictly in sequence — the invoked
stages always form a prefix of scrape, upload, store — and an empty stage
result aborts: an empty scrape result stops before upload and store, an
empty upload result stops before store. -/
theorem C8_stage_sequencing (sr : Except Unit (List (List Char)))
    (uw : List Char → NetOutcome) :
    (sr = .ok [] → run_full_workflow sr uw = ([Stage.scrape], [])) ∧
    (∀ paths, sr = .ok paths → paths ≠ [] → upload_files uw paths = .ok [] →
        run_full_workflow sr uw = ([Stage.scrape, Stage.upload], [])) ∧
    (∃ n, (run_full_workflow sr uw).1 =
        List.take n [Stage.scrape, Stage.upload, Stage.store]) := by
  refine ⟨?_, ?_, ?_⟩
  · intro h
    subst h
    rfl
  · intro paths h hne hup
    subst h
    unfold run_full_workflow
    simp [hne, hup]
  · unfold run_full_workflow
    cases sr with
    | error e => exact ⟨1, rfl⟩
    | ok paths =>
      by_cases hp : paths = []
      · exact ⟨1, by simp [hp]⟩
      · cases hu : upload_files uw paths with
        | error e => exact ⟨2, by simp [hp, hu]⟩
        | ok urls =>
          by_cases hur : urls = []
          · exact ⟨2, by simp [hp, hu, hur]⟩
          · exact ⟨3, by simp [hp, hu, hur]⟩

/-- Witness for `C8_stage_sequencing`: with no downloaded files only the
scrape stage runs and nothing is stored. -/
theorem C8_stage_sequencing_witness :
    run_full_workflow (.ok []) uploadWorldW = ([Stage.scrape], []) :=
  (C8_stage_sequencing (.ok []) uploadWorldW).1 rfl

/-- C9: for every valid current date, the `(month, year)` pair
`_perform_search` selects is the previous calendar month — the month
before the current one, with the year decremented exactly when the current
month is January; the day-of-month clamping of `relativedelta` never
changes that pair. -/
theorem searchTarget_eq (y m d : Nat) (y' m' : Int)
    (h : relativedeltaMonth (y : Int) (m : Int) (-1) = (y', m'))
    (hy : 1 ≤ y' ∧ y' ≤ 9999) :
    searchTarget y m d = some (m'.toNat, y'.toNat) := by
  unfold searchTarget monthsBack1
  rw [h]
  rw [if_pos hy]
  rfl

theorem C9_previous_calendar_month (y m d : Nat)
    (hm1 : 1 ≤ m) (hm2 : m ≤ 12) (hd1 : 1 ≤ d) (hd2 : d ≤ daysInMonth y m)
    (hy1 : 1 ≤ y) (hy2 : y ≤ 9999) (hJan : m = 1 → 2 ≤ y) :
    searchTarget y m d =
      some (if m = 1 then 12 else m - 1, if m = 1 then y - 1 else y) := by
  by_cases h1 : m = 1
  · subst h1
    have h2 : 2 ≤ y := hJan rfl
    have e1 : relativedeltaMonth (y : Int) (1 : Int) (-1) = ((y : Int) - 1, 12) := by
      unfold relativedeltaMonth
      norm_num
    rw [searchTarget_eq y 1 d ((y : Int) - 1) 12 e1 (by omega)]
    have e2 : ((y : Int) - 1).toNat = y - 1 := by omega
    simp [e2]
  · have hm2' : 2 ≤ m := by omega
    have e1 : relativedeltaMonth (y : Int) (m : Int) (-1) = ((y : Int), (m : Int) - 1) := by
      unfold relativedeltaMonth
      have c1 : ¬((m : Int) + (-1) > 12) := by omega
      have c2 : ¬((m : Int) + (-1) < 1) := by omega
      simp [c1, c2]
      omega
    rw [searchTarget_eq y m d (y : Int) ((m : Int) - 1) e1 (by omega)]
    have e2 : ((m : Int) - 1).toNat = m - 1 := by omega
    have e3 : ((y : Int)).toNat = y := by omega
    simp [e2, e3, h1]

/-- Witness for `C9_previous_calendar_month`: run in January 2026 the
scraper searches December 2025. -/
theorem C9_previous_calendar_month_witness :
    searchTarget 2026 1 15 =
      some (if 1 = 1 then 12 else 1 - 1, if 1 = 1 then 2026 - 1 else 2026) :=
  C9_previous_calendar_month 2026 1 15 (by decide) (by decide) (by decide)
    (by decide) (by decide) (by decide) (by decide)

/-- C10: `GET /gazettes/?month=m&year=0` with a month in 1..12 is treated
exactly as if the year were missing — HTTP 400 — because the handler tests
the parameters by Python truthiness; year 0 can never reach the filter. -/
theorem C10_year_zero_treated_as_missing (db : DB) (skip limit : Nat) (m : Int)
    (hm1 : 1 ≤ m) (hm2 : m ≤ 12) :
    read_gazettes (some m) (some 0) skip limit db = .httpError 400 ∧
    read_gazettes (some m) (some 0) skip limit db =
      read_gazettes (some m) none skip limit db := by
  have hm : m ≠ 0 := by omega
  simp [read_gazettes, truthy, hm]

/-- Witness for `C10_year_zero_treated_as_missing` at month 7. -/
theorem C10_year_zero_witness :
    read_gazettes (some 7) (some 0) 0 100 db6 = .httpError 400 ∧
    read_gazettes (some 7) (some 0) 0 100 db6 =
      read_gazettes (some 7) none 0 100 db6 :=
  C10_year_zero_treated_as_missing db6 0 100 7 (by decide) (by decide)

end Conthabil
